import Mathlib

/-!
Verification of the DWC2 common core bring-up code
(`src/portable/synopsys/dwc2/dwc2_common.c`): core soft reset handshake,
PHY configuration (full-speed and high-speed), identity check and the
top-level `dwc2_core_init` sequence.

Register bit layouts and the small inline helpers come from the header
`dwc2_common.h` / `dwc2_types.h`, which is not part of the sources here;
those constants are modelled from the specification (identification
register with an id field and a revision field, global USB config with
TOCAL / PHYSEL / PHYIF16 / ULPI-UTMI-select / TRDT fields, reset/status
register with CSRST / CSRST_DONE / AHBIDL bits, and so on).
-/

/-- Modelled from the spec: bit layout of the reset/status register
(`GRSTCTL`) is declared in `dwc2_common.h` / `dwc2_types.h`, which is not
under `src/`.  The core-soft-reset assert bit. -/
def GRSTCTL_CSRST : Nat := 1

/-- Modelled from the spec: the write-1-to-clear reset-done status bit of
the reset/status register, introduced with core revision 4.20a. -/
def GRSTCTL_CSRST_DONE : Nat := 2 ^ 29

/-- Modelled from the spec: the AHB-master-idle status bit of the
reset/status register. -/
def GRSTCTL_AHBIDL : Nat := 2 ^ 31

/-- Modelled from the spec: the low 16 bits of the identification register
hold the core revision (`DWC2_CORE_REV_MASK` of `dwc2_common.h`). -/
def DWC2_CORE_REV_MASK : Nat := 0xFFFF

/-- Modelled from the spec: the identification value of core revision
4.20a, the threshold between the two reset handshake protocols. -/
def DWC2_CORE_REV_4_20a : Nat := 0x4F54420A

/-- All reads of hardware registers return 32-bit values: `read32 rd k` is
the value the k-th read of the reset/status register observes, truncated
to the register width. -/
def read32 (rd : Nat → Nat) (k : Nat) : Nat := rd k % 2 ^ 32

/-- One busy-wait loop (`while (!p(read)) {}`), fuel-bounded: returns the
index of the first read at or after `start` satisfying `p`, or `none` when
`fuel` polls were exhausted (the C loop would still be spinning). -/
def waitUntil (fuel start : Nat) (p : Nat → Bool) (rd : Nat → Nat) : Option Nat :=
  match fuel with
  | 0 => none
  | f + 1 => if p (read32 rd start) then some start else waitUntil f (start + 1) p rd

/-- Bitwise complement within the 32-bit register width: `~m` of the C
code applied to a 32-bit mask. -/
def compl32 (m : Nat) : Nat := 0xFFFFFFFF ^^^ m

/-- The single register write of the revision-at-or-above-4.20a path that
clears the core-soft-reset assert bit while acknowledging reset-done:
`dwc2->grstctl = (dwc2->grstctl & ~GRSTCTL_CSRST) | GRSTCTL_CSRST_DONE`,
applied to the value `v` just read. -/
def resetAckWrite (v : Nat) : Nat := (v &&& compl32 GRSTCTL_CSRST) ||| GRSTCTL_CSRST_DONE

/-- Shallow embedding of `reset_core` as a trace function.  `rd k` is the
value hardware presents to the k-th read of `grstctl` (read 0 feeds the
assert read-modify-write; poll reads follow in program order).  The result
is the list of values written to `grstctl`, in order, or `none` when a
busy-wait loop did not terminate within `fuel` polls. -/
def reset_core (gsnpsid : Nat) (rd : Nat → Nat) (fuel : Nat) : Option (List Nat) :=
  let w1 := read32 rd 0 ||| GRSTCTL_CSRST
  if (gsnpsid &&& DWC2_CORE_REV_MASK) < (DWC2_CORE_REV_4_20a &&& DWC2_CORE_REV_MASK) then
    match waitUntil fuel 1 (fun v => v &&& GRSTCTL_CSRST == 0) rd with
    | none => none
    | some k =>
      match waitUntil fuel (k + 1) (fun v => v &&& GRSTCTL_AHBIDL != 0) rd with
      | none => none
      | some _ => some [w1]
  else
    match waitUntil fuel 1 (fun v => v &&& GRSTCTL_CSRST_DONE != 0) rd with
    | none => none
    | some k =>
      let w2 := resetAckWrite (read32 rd (k + 1))
      match waitUntil fuel (k + 2) (fun v => v &&& GRSTCTL_AHBIDL != 0) rd with
      | none => none
      | some _ => some [w1, w2]

theorem waitUntil_spec (fuel start : Nat) (p : Nat → Bool) (rd : Nat → Nat) (k : Nat)
    (h : waitUntil fuel start p rd = some k) :
    start ≤ k ∧ p (read32 rd k) = true ∧
      ∀ j, start ≤ j → j < k → p (read32 rd j) = false := by
  induction fuel generalizing start with
  | zero => simp [waitUntil] at h
  | succ f ih =>
    rw [waitUntil] at h
    by_cases hp : p (read32 rd start) = true
    · simp [hp] at h
      subst h
      exact ⟨le_refl _, hp, fun j h1 h2 => absurd (lt_of_le_of_lt h1 h2) (lt_irrefl _)⟩
    · simp [hp] at h
      obtain ⟨h1, h2, h3⟩ := ih (start + 1) h
      refine ⟨le_trans (Nat.le_succ _) h1, h2, fun j hj1 hj2 => ?_⟩
      rcases Nat.eq_or_lt_of_le hj1 with rfl | hlt
      · exact eq_false_of_ne_true hp
      · exact h3 j hlt hj2

theorem waitUntil_none_of_never (fuel start : Nat) (p : Nat → Bool) (rd : Nat → Nat)
    (h : ∀ j, start ≤ j → p (read32 rd j) = false) :
    waitUntil fuel start p rd = none := by
  induction fuel generalizing start with
  | zero => rfl
  | succ f ih =>
    rw [waitUntil, h start (le_refl _)]
    simp
    exact ih (start + 1) (fun j hj => h j (le_trans (Nat.le_succ _) hj))

theorem waitUntil_congr (fuel start : Nat) (p : Nat → Bool) (rd rd2 : Nat → Nat)
    (h : ∀ j, start ≤ j → p (read32 rd j) = p (read32 rd2 j)) :
    waitUntil fuel start p rd = waitUntil fuel start p rd2 := by
  induction fuel generalizing start with
  | zero => rfl
  | succ f ih =>
    rw [waitUntil, waitUntil, h start (le_refl _)]
    by_cases hp : p (read32 rd2 start) = true
    · simp [hp]
    · simp [hp]
      exact ih (start + 1) (fun j hj => h j (le_trans (Nat.le_succ _) hj))

/-- Modelled from the spec: bit positions of the global USB config
register (`GUSBCFG`) are declared in the header `dwc2_types.h`, which is
not under `src/`.  The HS/FS timeout calibration field starts at bit 0. -/
def GUSBCFG_TOCAL_Pos : Nat := 0

/-- Modelled from the spec: the 16-bit PHY interface select bit. -/
def GUSBCFG_PHYIF16 : Nat := 2 ^ 3

/-- Modelled from the spec: the ULPI/UTMI select bit (set = external ULPI
PHY, clear = internal UTMI+ PHY). -/
def GUSBCFG_ULPI_UTMI_SEL : Nat := 2 ^ 4

/-- Modelled from the spec: the full-speed-PHY select bit. -/
def GUSBCFG_PHYSEL : Nat := 2 ^ 6

/-- Modelled from the spec: the ULPI double-data-rate select bit. -/
def GUSBCFG_DDRSEL : Nat := 2 ^ 7

/-- Modelled from the spec: the turn-around-time field starts at bit 10. -/
def GUSBCFG_TRDT_Pos : Nat := 10

/-- Modelled from the spec: the four-bit turn-around-time field mask. -/
def GUSBCFG_TRDT_Msk : Nat := 0xF <<< 10

/-- Modelled from the spec: the ULPI FS/LS select bit. -/
def GUSBCFG_ULPIFSLS : Nat := 2 ^ 17

/-- Modelled from the spec: the ULPI clock-suspend-mode bit. -/
def GUSBCFG_ULPICSM : Nat := 2 ^ 19

/-- Modelled from the spec: the ULPI external VBUS drive bit. -/
def GUSBCFG_ULPIEVBUSD : Nat := 2 ^ 20

/-- Modelled from the spec: the ULPI external VBUS indicator bit. -/
def GUSBCFG_ULPIEVBUSI : Nat := 2 ^ 21

/-- Modelled from the spec: the DMA enable bit of the AHB config
register. -/
def GAHBCFG_DMAEN : Nat := 2 ^ 5

/-- Modelled from the spec: the AHB burst length field value the driver
programs together with DMA enable (an 8-beat burst per spec step 7); the
exact encoding lives in the missing header. -/
def GAHBCFG_HBSTLEN_2 : Nat := 2 <<< 1

/-- Modelled from the spec: the TX-FIFO-empty interrupt level bit of the
AHB config register (set = trigger when completely empty). -/
def GAHBCFG_TXFELVL : Nat := 2 ^ 7

/-- Modelled from the spec: the receive-FIFO-non-empty interrupt mask bit
(set in `GINTMSK` = interrupt unmasked). -/
def GINTMSK_RXFLVLM : Nat := 2 ^ 4

/-- Modelled from the spec: stop-PHY-clock bit of the power/clock gating
control register. -/
def PCGCCTL_STOPPCLK : Nat := 1

/-- Modelled from the spec: gate-HCLK bit of the power/clock gating
control register. -/
def PCGCCTL_GATEHCLK : Nat := 2

/-- Modelled from the spec: power clamp bit of the power/clock gating
control register. -/
def PCGCCTL_PWRCLMP : Nat := 2 ^ 2

/-- Modelled from the spec: reset-power-down-module bit of the power/clock
gating control register. -/
def PCGCCTL_RSTPDWNMODULE : Nat := 2 ^ 3

/-- Modelled from the spec: high-speed PHY type values of `ghwcfg2` — no
high-speed PHY present. -/
def GHWCFG2_HSPHY_NOT_SUPPORTED : Nat := 0

/-- Modelled from the spec: high-speed PHY type value — internal UTMI+. -/
def GHWCFG2_HSPHY_UTMI : Nat := 1

/-- Modelled from the spec: high-speed PHY type value — external ULPI. -/
def GHWCFG2_HSPHY_ULPI : Nat := 2

/-- Modelled from the spec: the high half of the DMA FIFO config register
starts at bit 16 (`GDFIFOCFG_EPINFOBASE_SHIFT`). -/
def GDFIFOCFG_EPINFOBASE_SHIFT : Nat := 16

/-- Modelled from the spec: the TX FIFO flush request bit of the
reset/status register (used by the FIFO flush helpers of the missing
header). -/
def GRSTCTL_TXFFLSH : Nat := 2 ^ 5

/-- Modelled from the spec: position of the TX FIFO number field of the
reset/status register. -/
def GRSTCTL_TXFNUM_Pos : Nat := 6

/-- Modelled from the spec: the RX FIFO flush request bit of the
reset/status register. -/
def GRSTCTL_RXFFLSH : Nat := 2 ^ 4

/-- Modelled from the spec: the id field of the identification register
(`GSNPSID_ID_MASK` of the missing header). -/
def GSNPSID_ID_MASK : Nat := 0xFFFF0000

/-- Modelled from the spec: the recognized OTG-class identification
value. -/
def DWC2_OTG_ID : Nat := 0x4F540000

/-- Modelled from the spec: the recognized full-speed-IoT identification
value. -/
def DWC2_FS_IOT_ID : Nat := 0x55310000

/-- Modelled from the spec: the recognized high-speed-IoT identification
value. -/
def DWC2_HS_IOT_ID : Nat := 0x55320000

/-- The software-writable registers of one DWC2 port that
`dwc2_common.c` touches.  The read-only identification and hardware
capability values (`gsnpsid`, `ghwcfg2_bm.hs_phy_type`,
`ghwcfg4_bm.phy_data_width`) are immutable per chip instance and are
passed to the operations as plain parameters. -/
structure Dwc2Regs where
  gusbcfg : Nat
  grstctl : Nat
  gahbcfg : Nat
  pcgcctl : Nat
  gintsts : Nat
  gotgint : Nat
  gintmsk : Nat
  gdfifocfg : Nat
deriving Repr, DecidableEq

/-- The global USB config value `phy_fs_init` composes and caches in its
local variable before reset: the entry value with the full-speed-PHY
select bit set. -/
def phy_fs_composed (g0 : Nat) : Nat := g0 ||| GUSBCFG_PHYSEL

/-- The global USB config value `phy_hs_init` composes and caches in its
local variable before reset (lines 91-124 of `dwc2_common.c`). -/
def phy_hs_composed (hsPhyType phyDataWidth g0 : Nat) : Nat :=
  let g := g0 &&& compl32 GUSBCFG_PHYSEL
  if hsPhyType == GHWCFG2_HSPHY_ULPI then
    let g := g ||| GUSBCFG_ULPI_UTMI_SEL
    let g := g &&& compl32 GUSBCFG_PHYIF16
    let g := g &&& compl32 GUSBCFG_DDRSEL
    let g := g &&& compl32 (GUSBCFG_ULPIEVBUSD ||| GUSBCFG_ULPIEVBUSI)
    g &&& compl32 (GUSBCFG_ULPIFSLS ||| GUSBCFG_ULPICSM)
  else
    let g := g &&& compl32 GUSBCFG_ULPI_UTMI_SEL
    if phyDataWidth != 0 then g ||| GUSBCFG_PHYIF16
    else g &&& compl32 GUSBCFG_PHYIF16

/-- The post-reset update of the cached config value: clear the
turn-around-time field and install `trdt` there. -/
def trdtSet (g trdt : Nat) : Nat :=
  (g &&& compl32 GUSBCFG_TRDT_Msk) ||| (trdt <<< GUSBCFG_TRDT_Pos)

/-- Shallow embedding of `phy_fs_init`.  The MCU-specific hooks
`dwc2_phy_init` / `dwc2_phy_update` and the state effect of `reset_core`
(which touches only the reset/status register, with hardware reacting to
the reset pulse) are external collaborators, passed as arbitrary state
transformers. -/
def phy_fs_init (hookInit hookUpdate : Nat → Dwc2Regs → Dwc2Regs)
    (resetFn : Dwc2Regs → Dwc2Regs) (s : Dwc2Regs) : Dwc2Regs :=
  let gusbcfg := phy_fs_composed s.gusbcfg
  let s := { s with gusbcfg := gusbcfg }
  let s := hookInit GHWCFG2_HSPHY_NOT_SUPPORTED s
  let s := resetFn s
  let gusbcfg := trdtSet gusbcfg 5
  let s := { s with gusbcfg := gusbcfg }
  hookUpdate GHWCFG2_HSPHY_NOT_SUPPORTED s

/-- Shallow embedding of `phy_hs_init`; `hsPhyType` and `phyDataWidth`
are the read-only capability descriptor fields `ghwcfg2_bm.hs_phy_type`
and `ghwcfg4_bm.phy_data_width`. -/
def phy_hs_init (hsPhyType phyDataWidth : Nat)
    (hookInit hookUpdate : Nat → Dwc2Regs → Dwc2Regs)
    (resetFn : Dwc2Regs → Dwc2Regs) (s : Dwc2Regs) : Dwc2Regs :=
  let gusbcfg := phy_hs_composed hsPhyType phyDataWidth s.gusbcfg
  let s := { s with gusbcfg := gusbcfg }
  let s := hookInit hsPhyType s
  let s := resetFn s
  let gusbcfg := trdtSet gusbcfg (if phyDataWidth != 0 then 5 else 9)
  let s := { s with gusbcfg := gusbcfg }
  hookUpdate hsPhyType s

/-- Shallow embedding of `check_dwc2`: on the GD32VF103 erratum variant
the check is skipped unconditionally; otherwise the identification
register masked to the id field must equal one of the three recognized
values. -/
def check_dwc2 (isGD32VF103 : Bool) (gsnpsid : Nat) : Bool :=
  if isGD32VF103 then true
  else
    let id := gsnpsid &&& GSNPSID_ID_MASK
    id == DWC2_OTG_ID || id == DWC2_FS_IOT_ID || id == DWC2_HS_IOT_ID

/-- Modelled from the spec: `dfifo_flush_tx` is an inline helper of
`dwc2_common.h`, which is not under `src/`; per the spec it flushes the
TX FIFOs selected by `fnum` (0x10 = flush all) through the reset/status
register and waits for hardware to clear the request. -/
def dfifo_flush_tx (fnum : Nat) (s : Dwc2Regs) : Dwc2Regs :=
  { s with grstctl := GRSTCTL_TXFFLSH ||| (fnum <<< GRSTCTL_TXFNUM_Pos) }

/-- Modelled from the spec: `dfifo_flush_rx` is an inline helper of
`dwc2_common.h`, which is not under `src/`; per the spec it flushes the
receive FIFO through the reset/status register. -/
def dfifo_flush_rx (s : Dwc2Regs) : Dwc2Regs :=
  { s with grstctl := GRSTCTL_RXFFLSH }

/-- Step 3 of `dwc2_core_init`: OR the maximum value 7 into the HS/FS
timeout calibration field of the global USB config register. -/
def core_init_calibrate (s : Dwc2Regs) : Dwc2Regs :=
  { s with gusbcfg := s.gusbcfg ||| (7 <<< GUSBCFG_TOCAL_Pos) }

/-- Steps 4-6 of `dwc2_core_init`: enable the PHY clock, flush the FIFOs,
clear pending interrupt status (write-1-to-clear write-back of the bits
currently set) and mask all interrupts. -/
def core_init_clock_fifo_int (s : Dwc2Regs) : Dwc2Regs :=
  let m := PCGCCTL_STOPPCLK ||| PCGCCTL_GATEHCLK ||| PCGCCTL_PWRCLMP ||| PCGCCTL_RSTPDWNMODULE
  let s := { s with pcgcctl := s.pcgcctl &&& compl32 m }
  let s := dfifo_flush_tx 0x10 s
  let s := dfifo_flush_rx s
  let s := { s with gintsts := s.gintsts ||| s.gintsts }
  let s := { s with gotgint := s.gotgint ||| s.gotgint }
  { s with gintmsk := 0 }

/-- Steps 7-8 of `dwc2_core_init`: in DMA mode program the endpoint-info
FIFO base (a `uint16_t`) into both halves of the DMA FIFO config register
and enable DMA with the burst length; otherwise unmask the
receive-FIFO-non-empty interrupt.  Finally set the TX-FIFO-empty trigger
level. -/
def core_init_dma_mode (is_dma : Bool) (epinfoBase : Nat) (s : Dwc2Regs) : Dwc2Regs :=
  let s :=
    if is_dma then
      let e := epinfoBase % 2 ^ 16
      let s := { s with gdfifocfg := (e <<< GDFIFOCFG_EPINFOBASE_SHIFT) ||| e }
      { s with gahbcfg := s.gahbcfg ||| (GAHBCFG_DMAEN ||| GAHBCFG_HBSTLEN_2) }
    else
      { s with gintmsk := s.gintmsk ||| GINTMSK_RXFLVLM }
  { s with gahbcfg := s.gahbcfg ||| GAHBCFG_TXFELVL }

/-- Shallow embedding of `dwc2_core_init`.  `epinfoBase` is the value the
external `dma_cal_epfifo_base(rhport)` returns (truncated to `uint16_t`
by the code); the hooks and the reset state effect are passed through to
the PHY configurators.  Returns the C function result together with the
final register state; on identity-check failure the entry state is
returned untouched. -/
def dwc2_core_init (isGD32VF103 : Bool) (gsnpsid hsPhyType phyDataWidth epinfoBase : Nat)
    (hookInit hookUpdate : Nat → Dwc2Regs → Dwc2Regs) (resetFn : Dwc2Regs → Dwc2Regs)
    (is_highspeed is_dma : Bool) (s : Dwc2Regs) : Bool × Dwc2Regs :=
  if !check_dwc2 isGD32VF103 gsnpsid then (false, s)
  else
    let s :=
      if is_highspeed then phy_hs_init hsPhyType phyDataWidth hookInit hookUpdate resetFn s
      else phy_fs_init hookInit hookUpdate resetFn s
    let s := core_init_calibrate s
    let s := core_init_clock_fifo_int s
    let s := core_init_dma_mode is_dma epinfoBase s
    (true, s)

/-- Extract the turn-around-time field of a global USB config value. -/
def trdtField (g : Nat) : Nat := (g >>> GUSBCFG_TRDT_Pos) &&& 0xF

/-- Extract the HS/FS timeout calibration field of a global USB config
value. -/
def tocalField (g : Nat) : Nat := (g >>> GUSBCFG_TOCAL_Pos) &&& 0x7

theorem read32_lt (rd : Nat → Nat) (k : Nat) : read32 rd k < 2 ^ 32 :=
  Nat.mod_lt _ (by norm_num)

theorem compl32_testBit (m i : Nat) :
    (compl32 m).testBit i = (decide (i < 32) ^^ m.testBit i) := by
  rw [compl32, Nat.testBit_xor]
  congr 1
  rw [show (0xFFFFFFFF : Nat) = 2 ^ 32 - 1 by norm_num]
  exact Nat.testBit_two_pow_sub_one 32 i

theorem resetAckWrite_clears_csrst (v : Nat) : resetAckWrite v &&& GRSTCTL_CSRST = 0 := by
  apply Nat.eq_of_testBit_eq
  intro i
  simp only [resetAckWrite, Nat.testBit_and, Nat.testBit_or, compl32_testBit, Nat.zero_testBit]
  rcases eq_or_ne i 0 with rfl | hi
  · have h1 : Nat.testBit GRSTCTL_CSRST 0 = true := by decide
    have h2 : Nat.testBit GRSTCTL_CSRST_DONE 0 = false := by decide
    simp [h1, h2]
  · have h1 : Nat.testBit GRSTCTL_CSRST i = false := by
      rw [GRSTCTL_CSRST, show (1 : Nat) = 2 ^ 0 from rfl]
      exact Nat.testBit_two_pow_of_ne (Ne.symm hi)
    simp [h1]

theorem resetAckWrite_sets_done (v : Nat) :
    resetAckWrite v &&& GRSTCTL_CSRST_DONE = GRSTCTL_CSRST_DONE := by
  apply Nat.eq_of_testBit_eq
  intro i
  simp only [resetAckWrite, Nat.testBit_and, Nat.testBit_or]
  rcases eq_or_ne i 29 with rfl | hi
  · have h2 : Nat.testBit GRSTCTL_CSRST_DONE 29 = true := by decide
    simp [h2]
  · have h2 : Nat.testBit GRSTCTL_CSRST_DONE i = false := by
      rw [GRSTCTL_CSRST_DONE]
      exact Nat.testBit_two_pow_of_ne (Ne.symm hi)
    simp [h2]

theorem resetAckWrite_frame (v : Nat) (hv : v < 2 ^ 32) (i : Nat)
    (h0 : i ≠ 0) (h29 : i ≠ 29) : (resetAckWrite v).testBit i = v.testBit i := by
  simp only [resetAckWrite, Nat.testBit_and, Nat.testBit_or, compl32_testBit]
  rcases Nat.lt_or_ge i 32 with h | h
  · have hc : Nat.testBit GRSTCTL_CSRST i = false := by
      rw [GRSTCTL_CSRST, show (1 : Nat) = 2 ^ 0 from rfl]
      exact Nat.testBit_two_pow_of_ne (Ne.symm h0)
    have hd : Nat.testBit GRSTCTL_CSRST_DONE i = false := by
      rw [GRSTCTL_CSRST_DONE]
      exact Nat.testBit_two_pow_of_ne (Ne.symm h29)
    simp [hc, hd, h]
  · have hvi : v.testBit i = false :=
      Nat.testBit_lt_two_pow (lt_of_lt_of_le hv (Nat.pow_le_pow_right (by norm_num) h))
    have hd : Nat.testBit GRSTCTL_CSRST_DONE i = false := by
      rw [GRSTCTL_CSRST_DONE]
      exact Nat.testBit_two_pow_of_ne (by omega)
    simp [hvi, hd]

theorem reset_core_legacy_run (gsnpsid : Nat) (rd : Nat → Nat) (fuel : Nat) (l : List Nat)
    (hrev : gsnpsid &&& DWC2_CORE_REV_MASK < DWC2_CORE_REV_4_20a &&& DWC2_CORE_REV_MASK)
    (hrun : reset_core gsnpsid rd fuel = some l) :
    ∃ k m, waitUntil fuel 1 (fun v => v &&& GRSTCTL_CSRST == 0) rd = some k ∧
      waitUntil fuel (k + 1) (fun v => v &&& GRSTCTL_AHBIDL != 0) rd = some m ∧
      l = [read32 rd 0 ||| GRSTCTL_CSRST] := by
  rw [reset_core] at hrun
  simp only [if_pos hrev] at hrun
  cases hd : waitUntil fuel 1 (fun v => v &&& GRSTCTL_CSRST == 0) rd with
  | none => rw [hd] at hrun; simp at hrun
  | some k =>
    rw [hd] at hrun
    simp only [] at hrun
    cases ha : waitUntil fuel (k + 1) (fun v => v &&& GRSTCTL_AHBIDL != 0) rd with
    | none => rw [ha] at hrun; simp at hrun
    | some m =>
      rw [ha] at hrun
      simp only [Option.some.injEq] at hrun
      exact ⟨k, m, rfl, ha, hrun.symm⟩

theorem reset_core_hs_run (gsnpsid : Nat) (rd : Nat → Nat) (fuel : Nat) (l : List Nat)
    (hrev : ¬ gsnpsid &&& DWC2_CORE_REV_MASK < DWC2_CORE_REV_4_20a &&& DWC2_CORE_REV_MASK)
    (hrun : reset_core gsnpsid rd fuel = some l) :
    ∃ k m, waitUntil fuel 1 (fun v => v &&& GRSTCTL_CSRST_DONE != 0) rd = some k ∧
      waitUntil fuel (k + 2) (fun v => v &&& GRSTCTL_AHBIDL != 0) rd = some m ∧
      l = [read32 rd 0 ||| GRSTCTL_CSRST, resetAckWrite (read32 rd (k + 1))] := by
  rw [reset_core] at hrun
  simp only [if_neg hrev] at hrun
  cases hd : waitUntil fuel 1 (fun v => v &&& GRSTCTL_CSRST_DONE != 0) rd with
  | none => rw [hd] at hrun; simp at hrun
  | some k =>
    rw [hd] at hrun
    simp only [] at hrun
    cases ha : waitUntil fuel (k + 2) (fun v => v &&& GRSTCTL_AHBIDL != 0) rd with
    | none => rw [ha] at hrun; simp at hrun
    | some m =>
      rw [ha] at hrun
      simp only [Option.some.injEq] at hrun
      exact ⟨k, m, rfl, ha, hrun.symm⟩

theorem and_mask_mono (x y m a : Nat) (hma : m &&& a = a) (h : x &&& m = y &&& m) :
    x &&& a = y &&& a := by
  have h2 : x &&& m &&& a = y &&& m &&& a := by rw [h]
  rwa [Nat.land_assoc, Nat.land_assoc, hma] at h2

theorem resetAckWrite_bit0 (v : Nat) : (resetAckWrite v).testBit 0 = false := by
  have h := resetAckWrite_clears_csrst v
  rw [GRSTCTL_CSRST, Nat.and_one_is_mod] at h
  rw [Nat.testBit_zero]
  simp [h]

theorem resetAckWrite_bit29 (v : Nat) : (resetAckWrite v).testBit 29 = true := by
  have h2 := congrArg (fun y => y.testBit 29) (resetAckWrite_sets_done v)
  simp only [Nat.testBit_and] at h2
  have hdone : GRSTCTL_CSRST_DONE.testBit 29 = true := by decide
  rw [hdone] at h2
  simpa using h2

/-- Claim C1: on every core whose revision field is at or above 4.20a,
a completed `reset_core` run first issues the assert write, then polls the
reset-done status bit — every poll before the exit read saw it clear, the
exit read saw it set — and only then issues its second and final write,
which clears the core-soft-reset bit and simultaneously writes 1 to the
reset-done bit in the same register write. -/
theorem reset_core_v420a_polls_done_then_acks (gsnpsid : Nat) (rd : Nat → Nat)
    (fuel : Nat) (l : List Nat)
    (hrev : ¬ gsnpsid &&& DWC2_CORE_REV_MASK < DWC2_CORE_REV_4_20a &&& DWC2_CORE_REV_MASK)
    (hrun : reset_core gsnpsid rd fuel = some l) :
    ∃ k, 1 ≤ k ∧
      (∀ j, 1 ≤ j → j < k → read32 rd j &&& GRSTCTL_CSRST_DONE = 0) ∧
      read32 rd k &&& GRSTCTL_CSRST_DONE ≠ 0 ∧
      l = [read32 rd 0 ||| GRSTCTL_CSRST, resetAckWrite (read32 rd (k + 1))] ∧
      resetAckWrite (read32 rd (k + 1)) &&& GRSTCTL_CSRST = 0 ∧
      resetAckWrite (read32 rd (k + 1)) &&& GRSTCTL_CSRST_DONE = GRSTCTL_CSRST_DONE := by
  obtain ⟨k, m, hd, ha, hl⟩ := reset_core_hs_run gsnpsid rd fuel l hrev hrun
  obtain ⟨hk1, hkp, hkprev⟩ := waitUntil_spec _ _ _ _ _ hd
  refine ⟨k, hk1, ?_, ?_, hl, resetAckWrite_clears_csrst _, resetAckWrite_sets_done _⟩
  · intro j hj1 hj2
    simpa using hkprev j hj1 hj2
  · simpa using hkp

def rdWitDone : Nat → Nat := fun k =>
  if k = 0 then 0 else if k ≤ 2 then 0 else 2 ^ 29 + 2 ^ 31

theorem reset_core_v420a_polls_done_then_acks_witness :
    (¬ (0x4F54420A : Nat) &&& DWC2_CORE_REV_MASK < DWC2_CORE_REV_4_20a &&& DWC2_CORE_REV_MASK) ∧
    (∃ k, 1 ≤ k ∧
      (∀ j, 1 ≤ j → j < k → read32 rdWitDone j &&& GRSTCTL_CSRST_DONE = 0) ∧
      read32 rdWitDone k &&& GRSTCTL_CSRST_DONE ≠ 0 ∧
      [1, 2 ^ 29 + 2 ^ 31]
        = [read32 rdWitDone 0 ||| GRSTCTL_CSRST, resetAckWrite (read32 rdWitDone (k + 1))] ∧
      resetAckWrite (read32 rdWitDone (k + 1)) &&& GRSTCTL_CSRST = 0 ∧
      resetAckWrite (read32 rdWitDone (k + 1)) &&& GRSTCTL_CSRST_DONE = GRSTCTL_CSRST_DONE) :=
  ⟨by decide, reset_core_v420a_polls_done_then_acks 0x4F54420A rdWitDone 10
    [1, 2 ^ 29 + 2 ^ 31] (by decide) (by decide)⟩

/-- Claim C2: on every core whose revision field is below 4.20a, a
completed `reset_core` run issues exactly the one assert write, spins
polling the self-clearing core-soft-reset bit until hardware clears it
(every earlier poll saw it still set), then waits for the AHB-master-idle
status bit before returning; and the run neither writes nor conditions on
the reset-done bit: its outcome is unchanged under any second oracle that
agrees on the first read and on the CSRST and AHBIDL bits of every poll
read, whatever the reset-done bit reports. -/
theorem reset_core_legacy_polls_csrst_only (gsnpsid : Nat) (rd rd2 : Nat → Nat)
    (fuel : Nat) (l : List Nat)
    (hrev : gsnpsid &&& DWC2_CORE_REV_MASK < DWC2_CORE_REV_4_20a &&& DWC2_CORE_REV_MASK)
    (hrun : reset_core gsnpsid rd fuel = some l) :
    (l = [read32 rd 0 ||| GRSTCTL_CSRST] ∧
      ∃ k m, 1 ≤ k ∧
        (∀ j, 1 ≤ j → j < k → read32 rd j &&& GRSTCTL_CSRST ≠ 0) ∧
        read32 rd k &&& GRSTCTL_CSRST = 0 ∧
        k < m ∧
        (∀ j, k < j → j < m → read32 rd j &&& GRSTCTL_AHBIDL = 0) ∧
        read32 rd m &&& GRSTCTL_AHBIDL ≠ 0) ∧
    (read32 rd 0 = read32 rd2 0 →
      (∀ j, 1 ≤ j → read32 rd j &&& (GRSTCTL_CSRST ||| GRSTCTL_AHBIDL)
        = read32 rd2 j &&& (GRSTCTL_CSRST ||| GRSTCTL_AHBIDL)) →
      reset_core gsnpsid rd2 fuel = some l) := by
  obtain ⟨k, m, hd, ha, hl⟩ := reset_core_legacy_run gsnpsid rd fuel l hrev hrun
  obtain ⟨hk1, hkp, hkprev⟩ := waitUntil_spec _ _ _ _ _ hd
  obtain ⟨hm1, hmp, hmprev⟩ := waitUntil_spec _ _ _ _ _ ha
  constructor
  · refine ⟨hl, k, m, hk1, ?_, ?_, by omega, ?_, ?_⟩
    · intro j hj1 hj2
      simpa using hkprev j hj1 hj2
    · simpa using hkp
    · intro j hj1 hj2
      simpa using hmprev j (by omega) hj2
    · simpa using hmp
  · intro h0 hagr
    have hC : ∀ j, 1 ≤ j → read32 rd j &&& GRSTCTL_CSRST = read32 rd2 j &&& GRSTCTL_CSRST :=
      fun j hj => and_mask_mono _ _ _ _ (by decide) (hagr j hj)
    have hA : ∀ j, 1 ≤ j → read32 rd j &&& GRSTCTL_AHBIDL = read32 rd2 j &&& GRSTCTL_AHBIDL :=
      fun j hj => and_mask_mono _ _ _ _ (by decide) (hagr j hj)
    have e1 : waitUntil fuel 1 (fun v => v &&& GRSTCTL_CSRST == 0) rd2 = some k := by
      rw [← waitUntil_congr fuel 1 _ rd rd2
        (fun j hj => congrArg (fun x => x == 0) (hC j hj))]
      exact hd
    have e2 : waitUntil fuel (k + 1) (fun v => v &&& GRSTCTL_AHBIDL != 0) rd2 = some m := by
      rw [← waitUntil_congr fuel (k + 1) _ rd rd2
        (fun j hj => congrArg (fun x => x != 0) (hA j (by omega)))]
      exact ha
    rw [reset_core]
    simp only [if_pos hrev]
    rw [e1]
    simp only []
    rw [e2]
    simp only []
    rw [← h0, hl]

def rdWitLow : Nat → Nat := fun k =>
  if k = 0 then 4 else if k = 1 then 1 else if k = 2 then 0 else 2 ^ 31

def rdWitLow2 : Nat → Nat := fun k =>
  if k = 0 then 4 else if k = 1 then 1 + 2 ^ 29 else if k = 2 then 2 ^ 29
  else 2 ^ 31 + 2 ^ 29

theorem reset_core_legacy_polls_csrst_only_witness :
    ((0x4F54330A : Nat) &&& DWC2_CORE_REV_MASK < DWC2_CORE_REV_4_20a &&& DWC2_CORE_REV_MASK) ∧
    (([5] = [read32 rdWitLow 0 ||| GRSTCTL_CSRST] ∧
      ∃ k m, 1 ≤ k ∧
        (∀ j, 1 ≤ j → j < k → read32 rdWitLow j &&& GRSTCTL_CSRST ≠ 0) ∧
        read32 rdWitLow k &&& GRSTCTL_CSRST = 0 ∧
        k < m ∧
        (∀ j, k < j → j < m → read32 rdWitLow j &&& GRSTCTL_AHBIDL = 0) ∧
        read32 rdWitLow m &&& GRSTCTL_AHBIDL ≠ 0) ∧
    (read32 rdWitLow 0 = read32 rdWitLow2 0 →
      (∀ j, 1 ≤ j → read32 rdWitLow j &&& (GRSTCTL_CSRST ||| GRSTCTL_AHBIDL)
        = read32 rdWitLow2 j &&& (GRSTCTL_CSRST ||| GRSTCTL_AHBIDL)) →
      reset_core 0x4F54330A rdWitLow2 10 = some [5])) :=
  ⟨by decide, reset_core_legacy_polls_csrst_only 0x4F54330A rdWitLow rdWitLow2 10 [5]
    (by decide) (by decide)⟩

/-- Claim C8: `reset_core` has no timeout or retry bound.  Whenever the
polled condition never occurs — the assert bit never self-clears on a
revision below 4.20a, the reset-done bit is never set on a revision at or
above 4.20a, or the AHB-master-idle bit is never set — the run does not
return: it stays in the busy-wait loop no matter how many polls (`fuel`)
it is granted. -/
theorem reset_core_no_timeout (gsnpsid : Nat) (rd : Nat → Nat) (fuel : Nat)
    (h : (gsnpsid &&& DWC2_CORE_REV_MASK < DWC2_CORE_REV_4_20a &&& DWC2_CORE_REV_MASK ∧
            ∀ j, 1 ≤ j → read32 rd j &&& GRSTCTL_CSRST ≠ 0) ∨
         (¬ gsnpsid &&& DWC2_CORE_REV_MASK < DWC2_CORE_REV_4_20a &&& DWC2_CORE_REV_MASK ∧
            ∀ j, 1 ≤ j → read32 rd j &&& GRSTCTL_CSRST_DONE = 0) ∨
         (∀ j, read32 rd j &&& GRSTCTL_AHBIDL = 0)) :
    reset_core gsnpsid rd fuel = none := by
  rw [reset_core]
  rcases h with ⟨hrev, hstuck⟩ | ⟨hrev, hstuck⟩ | hstuck
  · simp only [if_pos hrev]
    have e : waitUntil fuel 1 (fun v => v &&& GRSTCTL_CSRST == 0) rd = none :=
      waitUntil_none_of_never _ _ _ _ (fun j hj => by simp [hstuck j hj])
    rw [e]
  · simp only [if_neg hrev]
    have e : waitUntil fuel 1 (fun v => v &&& GRSTCTL_CSRST_DONE != 0) rd = none :=
      waitUntil_none_of_never _ _ _ _ (fun j hj => by simp [hstuck j hj])
    rw [e]
  · by_cases hrev : gsnpsid &&& DWC2_CORE_REV_MASK < DWC2_CORE_REV_4_20a &&& DWC2_CORE_REV_MASK
    · simp only [if_pos hrev]
      cases hd : waitUntil fuel 1 (fun v => v &&& GRSTCTL_CSRST == 0) rd with
      | none => rfl
      | some k =>
        have e : waitUntil fuel (k + 1) (fun v => v &&& GRSTCTL_AHBIDL != 0) rd = none :=
          waitUntil_none_of_never _ _ _ _ (fun j _ => by simp [hstuck j])
        simp only []
        rw [e]
    · simp only [if_neg hrev]
      cases hd : waitUntil fuel 1 (fun v => v &&& GRSTCTL_CSRST_DONE != 0) rd with
      | none => rfl
      | some k =>
        have e : waitUntil fuel (k + 2) (fun v => v &&& GRSTCTL_AHBIDL != 0) rd = none :=
          waitUntil_none_of_never _ _ _ _ (fun j _ => by simp [hstuck j])
        simp only []
        rw [e]

theorem reset_core_no_timeout_witness :
    (((0x4F54330A : Nat) &&& DWC2_CORE_REV_MASK < DWC2_CORE_REV_4_20a &&& DWC2_CORE_REV_MASK ∧
        ∀ j, 1 ≤ j → read32 (fun _ => 1) j &&& GRSTCTL_CSRST ≠ 0) ∨
      (¬ (0x4F54330A : Nat) &&& DWC2_CORE_REV_MASK < DWC2_CORE_REV_4_20a &&& DWC2_CORE_REV_MASK ∧
        ∀ j, 1 ≤ j → read32 (fun _ => 1) j &&& GRSTCTL_CSRST_DONE = 0) ∨
      (∀ j, read32 (fun _ => 1) j &&& GRSTCTL_AHBIDL = 0)) ∧
    reset_core 0x4F54330A (fun _ => 1) 7 = none :=
  ⟨Or.inl ⟨by decide, fun j _ =>
      show (1 : Nat) % 2 ^ 32 &&& GRSTCTL_CSRST ≠ 0 by decide⟩,
    reset_core_no_timeout 0x4F54330A (fun _ => 1) 7
      (Or.inl ⟨by decide, fun j _ =>
        show (1 : Nat) % 2 ^ 32 &&& GRSTCTL_CSRST ≠ 0 by decide⟩)⟩

/-- Claim C10: on the revision-at-or-above-4.20a path, the acknowledging
register write of a completed `reset_core` run leaves every bit of the
reset/status register other than bit 0 (the core-soft-reset bit, which it
clears) and bit 29 (the reset-done bit, which it sets to 1) equal to the
value just read from that register. -/
theorem reset_core_ack_write_frame (gsnpsid : Nat) (rd : Nat → Nat)
    (fuel : Nat) (l : List Nat)
    (hrev : ¬ gsnpsid &&& DWC2_CORE_REV_MASK < DWC2_CORE_REV_4_20a &&& DWC2_CORE_REV_MASK)
    (hrun : reset_core gsnpsid rd fuel = some l) :
    ∃ k, l = [read32 rd 0 ||| GRSTCTL_CSRST, resetAckWrite (read32 rd (k + 1))] ∧
      (∀ i, i ≠ 0 → i ≠ 29 →
        (resetAckWrite (read32 rd (k + 1))).testBit i = (read32 rd (k + 1)).testBit i) ∧
      (resetAckWrite (read32 rd (k + 1))).testBit 0 = false ∧
      (resetAckWrite (read32 rd (k + 1))).testBit 29 = true := by
  obtain ⟨k, m, hd, ha, hl⟩ := reset_core_hs_run gsnpsid rd fuel l hrev hrun
  exact ⟨k, hl, fun i h0 h29 => resetAckWrite_frame _ (read32_lt rd _) i h0 h29,
    resetAckWrite_bit0 _, resetAckWrite_bit29 _⟩

def rdWitAck : Nat → Nat := fun k =>
  if k = 0 then 3 else if k = 1 then 2 ^ 29 + 7 else 2 ^ 31 + 2 ^ 29

theorem reset_core_ack_write_frame_witness :
    (¬ (0x4F54420A : Nat) &&& DWC2_CORE_REV_MASK < DWC2_CORE_REV_4_20a &&& DWC2_CORE_REV_MASK) ∧
    (∃ k, [3, 2 ^ 31 + 2 ^ 29]
        = [read32 rdWitAck 0 ||| GRSTCTL_CSRST, resetAckWrite (read32 rdWitAck (k + 1))] ∧
      (∀ i, i ≠ 0 → i ≠ 29 →
        (resetAckWrite (read32 rdWitAck (k + 1))).testBit i
          = (read32 rdWitAck (k + 1)).testBit i) ∧
      (resetAckWrite (read32 rdWitAck (k + 1))).testBit 0 = false ∧
      (resetAckWrite (read32 rdWitAck (k + 1))).testBit 29 = true) :=
  ⟨by decide, reset_core_ack_write_frame 0x4F54420A rdWitAck 10 [3, 2 ^ 31 + 2 ^ 29]
    (by decide) (by decide)⟩

theorem testBit_15 (i : Nat) : Nat.testBit 15 i = decide (i < 4) := by
  rw [show (15 : Nat) = 2 ^ 4 - 1 from rfl]
  exact Nat.testBit_two_pow_sub_one 4 i

theorem testBit_7 (i : Nat) : Nat.testBit 7 i = decide (i < 3) := by
  rw [show (7 : Nat) = 2 ^ 3 - 1 from rfl]
  exact Nat.testBit_two_pow_sub_one 3 i

theorem testBit_false_of_lt_pow (t n i : Nat) (ht : t < 2 ^ n) (h : n ≤ i) :
    t.testBit i = false :=
  Nat.testBit_lt_two_pow (lt_of_lt_of_le ht (Nat.pow_le_pow_right (by norm_num) h))

theorem trdtField_trdtSet (g t : Nat) (ht : t < 16) : trdtField (trdtSet g t) = t := by
  apply Nat.eq_of_testBit_eq
  intro i
  simp only [trdtField, trdtSet, GUSBCFG_TRDT_Pos, GUSBCFG_TRDT_Msk, Nat.testBit_and,
    Nat.testBit_or, Nat.testBit_shiftRight, Nat.testBit_shiftLeft, compl32_testBit,
    Nat.add_sub_cancel_left, testBit_15]
  by_cases h4 : i < 4
  · simp [h4, show 10 + i < 32 by omega, show 10 + i ≥ 10 by omega]
  · have hti : Nat.testBit t i = false :=
      testBit_false_of_lt_pow t 4 i (by omega) (by omega)
    simp [h4, hti]

theorem trdtSet_outside (g t : Nat) (ht : t < 16) :
    trdtSet g t &&& compl32 GUSBCFG_TRDT_Msk = g &&& compl32 GUSBCFG_TRDT_Msk := by
  apply Nat.eq_of_testBit_eq
  intro i
  simp only [trdtSet, GUSBCFG_TRDT_Msk, GUSBCFG_TRDT_Pos, Nat.testBit_and, Nat.testBit_or,
    Nat.testBit_shiftLeft, compl32_testBit, testBit_15]
  by_cases h10 : 10 ≤ i
  · by_cases h14 : i < 14
    · simp [h10, show i - 10 < 4 by omega, show i < 32 by omega]
    · by_cases h32 : i < 32
      · have et : Nat.testBit t (i - 10) = false :=
          testBit_false_of_lt_pow t 4 _ (by omega) (by omega)
        simp [h10, show ¬ i - 10 < 4 by omega, h32, et]
      · simp [h10, show ¬ i - 10 < 4 by omega, h32]
  · simp [h10, show i < 32 by omega]

theorem trdtSet_testBit_low (g t i : Nat) (h : i < 10) :
    (trdtSet g t).testBit i = g.testBit i := by
  simp only [trdtSet, GUSBCFG_TRDT_Pos, GUSBCFG_TRDT_Msk, Nat.testBit_and, Nat.testBit_or,
    Nat.testBit_shiftLeft, compl32_testBit, testBit_15]
  simp [show ¬ 10 ≤ i by omega, show i < 32 by omega]

theorem phy_fs_init_gusbcfg (hookInit hookUpdate : Nat → Dwc2Regs → Dwc2Regs)
    (resetFn : Dwc2Regs → Dwc2Regs) (s : Dwc2Regs)
    (hpost : ∀ c t, (hookUpdate c t).gusbcfg = t.gusbcfg) :
    (phy_fs_init hookInit hookUpdate resetFn s).gusbcfg
      = trdtSet (phy_fs_composed s.gusbcfg) 5 := by
  simp [phy_fs_init, hpost]

theorem phy_hs_init_gusbcfg (hsPhyType phyDataWidth : Nat)
    (hookInit hookUpdate : Nat → Dwc2Regs → Dwc2Regs)
    (resetFn : Dwc2Regs → Dwc2Regs) (s : Dwc2Regs)
    (hpost : ∀ c t, (hookUpdate c t).gusbcfg = t.gusbcfg) :
    (phy_hs_init hsPhyType phyDataWidth hookInit hookUpdate resetFn s).gusbcfg
      = trdtSet (phy_hs_composed hsPhyType phyDataWidth s.gusbcfg)
          (if phyDataWidth != 0 then 5 else 9) := by
  simp [phy_hs_init, hpost]

theorem and_two_pow (x b : Nat) : x &&& 2 ^ b = if x.testBit b then 2 ^ b else 0 := by
  apply Nat.eq_of_testBit_eq
  intro i
  rw [Nat.testBit_and]
  rcases eq_or_ne i b with rfl | hib
  · cases h : x.testBit i <;> simp [h, Nat.testBit_two_pow_self]
  · have hb : Nat.testBit (2 ^ b) i = false := Nat.testBit_two_pow_of_ne (Ne.symm hib)
    cases h : x.testBit b <;> simp [hb, h]

theorem phy_hs_composed_utmi_bits (hsPhyType phyDataWidth g0 : Nat)
    (hulpi : hsPhyType ≠ GHWCFG2_HSPHY_ULPI) :
    (phy_hs_composed hsPhyType phyDataWidth g0).testBit 4 = false ∧
    (phy_hs_composed hsPhyType phyDataWidth g0).testBit 3 = (phyDataWidth != 0) := by
  have e : (hsPhyType == GHWCFG2_HSPHY_ULPI) = false := by simp [hulpi]
  have e644 : Nat.testBit 64 4 = false := by decide
  have e164 : Nat.testBit 16 4 = true := by decide
  have e84 : Nat.testBit 8 4 = false := by decide
  have e643 : Nat.testBit 64 3 = false := by decide
  have e163 : Nat.testBit 16 3 = false := by decide
  have e83 : Nat.testBit 8 3 = true := by decide
  cases hw : phyDataWidth != 0 with
  | false =>
    constructor <;>
      simp [phy_hs_composed, e, hw, compl32_testBit, GUSBCFG_PHYSEL,
        GUSBCFG_ULPI_UTMI_SEL, GUSBCFG_PHYIF16, Nat.testBit_and, Nat.testBit_or,
        e644, e164, e84, e643, e163, e83]
  | true =>
    constructor <;>
      simp [phy_hs_composed, e, hw, compl32_testBit, GUSBCFG_PHYSEL,
        GUSBCFG_ULPI_UTMI_SEL, GUSBCFG_PHYIF16, Nat.testBit_and, Nat.testBit_or,
        e644, e164, e84, e643, e163, e83]

/-- Claim C3: after `phy_fs_init` completes, the turn-around-time field of
the global USB config register holds exactly 5; after `phy_hs_init`
completes it holds exactly 5 when the capability descriptor advertises
16-bit PHY data width and exactly 9 otherwise — in particular it never
retains the pre-reset contents, whatever the entry state was.  The
MCU-specific post-reset hook is an external collaborator assumed not to
write the global USB config register. -/
theorem phy_init_turnaround_time (hsPhyType phyDataWidth : Nat)
    (hookInit hookUpdate : Nat → Dwc2Regs → Dwc2Regs) (resetFn : Dwc2Regs → Dwc2Regs)
    (s : Dwc2Regs)
    (hpost : ∀ c t, (hookUpdate c t).gusbcfg = t.gusbcfg) :
    trdtField (phy_fs_init hookInit hookUpdate resetFn s).gusbcfg = 5 ∧
    trdtField (phy_hs_init hsPhyType phyDataWidth hookInit hookUpdate resetFn s).gusbcfg
      = (if phyDataWidth != 0 then 5 else 9) := by
  constructor
  · rw [phy_fs_init_gusbcfg hookInit hookUpdate resetFn s hpost]
    exact trdtField_trdtSet _ 5 (by norm_num)
  · rw [phy_hs_init_gusbcfg hsPhyType phyDataWidth hookInit hookUpdate resetFn s hpost]
    exact trdtField_trdtSet _ _ (by split <;> norm_num)

def regs0 : Dwc2Regs := ⟨0, 0, 0, 0, 0, 0, 0, 0⟩

theorem phy_init_turnaround_time_witness :
    (∀ c t, ((fun _ u => u : Nat → Dwc2Regs → Dwc2Regs) c t).gusbcfg = t.gusbcfg) ∧
    (trdtField (phy_fs_init (fun _ u => u) (fun _ u => u) id regs0).gusbcfg = 5 ∧
      trdtField
          (phy_hs_init GHWCFG2_HSPHY_UTMI 1 (fun _ u => u) (fun _ u => u) id regs0).gusbcfg
        = (if (1 : Nat) != 0 then 5 else 9)) :=
  ⟨fun _ _ => rfl,
    phy_init_turnaround_time GHWCFG2_HSPHY_UTMI 1 (fun _ u => u) (fun _ u => u) id regs0
      (fun _ _ => rfl)⟩

/-- Claim C4: for every PHY capability other than "not supported" and
other than "ULPI external", `phy_hs_init` leaves the ULPI/UTMI select bit
of the global USB config register clear (internal UTMI+ path) and leaves
the 16-bit interface bit set if and only if the capability descriptor
(`ghwcfg4`) advertises 16-bit PHY data width. -/
theorem phy_hs_init_internal_phy_select (hsPhyType phyDataWidth : Nat)
    (hookInit hookUpdate : Nat → Dwc2Regs → Dwc2Regs) (resetFn : Dwc2Regs → Dwc2Regs)
    (s : Dwc2Regs)
    (hns : hsPhyType ≠ GHWCFG2_HSPHY_NOT_SUPPORTED)
    (hulpi : hsPhyType ≠ GHWCFG2_HSPHY_ULPI)
    (hpost : ∀ c t, (hookUpdate c t).gusbcfg = t.gusbcfg) :
    (phy_hs_init hsPhyType phyDataWidth hookInit hookUpdate resetFn s).gusbcfg
        &&& GUSBCFG_ULPI_UTMI_SEL = 0 ∧
    ((phy_hs_init hsPhyType phyDataWidth hookInit hookUpdate resetFn s).gusbcfg
        &&& GUSBCFG_PHYIF16 = GUSBCFG_PHYIF16 ↔ phyDataWidth ≠ 0) := by
  obtain ⟨hb4, hb3⟩ := phy_hs_composed_utmi_bits hsPhyType phyDataWidth s.gusbcfg hulpi
  rw [phy_hs_init_gusbcfg hsPhyType phyDataWidth hookInit hookUpdate resetFn s hpost]
  constructor
  · rw [GUSBCFG_ULPI_UTMI_SEL, and_two_pow, trdtSet_testBit_low _ _ 4 (by norm_num), hb4]
    simp
  · rw [GUSBCFG_PHYIF16, and_two_pow, trdtSet_testBit_low _ _ 3 (by norm_num), hb3]
    cases hw : phyDataWidth != 0 <;> simp_all

theorem phy_hs_init_internal_phy_select_witness :
    ((GHWCFG2_HSPHY_UTMI : Nat) ≠ GHWCFG2_HSPHY_NOT_SUPPORTED) ∧
    ((GHWCFG2_HSPHY_UTMI : Nat) ≠ GHWCFG2_HSPHY_ULPI) ∧
    (∀ c t, ((fun _ u => u : Nat → Dwc2Regs → Dwc2Regs) c t).gusbcfg = t.gusbcfg) ∧
    ((phy_hs_init GHWCFG2_HSPHY_UTMI 0 (fun _ u => u) (fun _ u => u) id regs0).gusbcfg
        &&& GUSBCFG_ULPI_UTMI_SEL = 0 ∧
      ((phy_hs_init GHWCFG2_HSPHY_UTMI 0 (fun _ u => u) (fun _ u => u) id regs0).gusbcfg
        &&& GUSBCFG_PHYIF16 = GUSBCFG_PHYIF16 ↔ (0 : Nat) ≠ 0)) :=
  ⟨by decide, by decide, fun _ _ => rfl,
    phy_hs_init_internal_phy_select GHWCFG2_HSPHY_UTMI 0 (fun _ u => u) (fun _ u => u) id
      regs0 (by decide) (by decide) (fun _ _ => rfl)⟩

/-- Claim C9: in both PHY configurators, the global USB config value
written after reset is exactly the value composed and cached before reset
with only the turn-around-time field replaced: the equalities determine
the final register contents from the cached composed value alone — so any
change the reset pulse or the MCU-specific pre-reset hook made to the
register is overwritten — and every bit outside the turn-around-time
field equals its pre-reset composed value. -/
theorem phy_init_gusbcfg_restore (hsPhyType phyDataWidth : Nat)
    (hookInit hookUpdate : Nat → Dwc2Regs → Dwc2Regs) (resetFn : Dwc2Regs → Dwc2Regs)
    (s : Dwc2Regs)
    (hpost : ∀ c t, (hookUpdate c t).gusbcfg = t.gusbcfg) :
    ((phy_fs_init hookInit hookUpdate resetFn s).gusbcfg
        = trdtSet (phy_fs_composed s.gusbcfg) 5 ∧
      (phy_fs_init hookInit hookUpdate resetFn s).gusbcfg &&& compl32 GUSBCFG_TRDT_Msk
        = phy_fs_composed s.gusbcfg &&& compl32 GUSBCFG_TRDT_Msk) ∧
    ((phy_hs_init hsPhyType phyDataWidth hookInit hookUpdate resetFn s).gusbcfg
        = trdtSet (phy_hs_composed hsPhyType phyDataWidth s.gusbcfg)
            (if phyDataWidth != 0 then 5 else 9) ∧
      (phy_hs_init hsPhyType phyDataWidth hookInit hookUpdate resetFn s).gusbcfg
          &&& compl32 GUSBCFG_TRDT_Msk
        = phy_hs_composed hsPhyType phyDataWidth s.gusbcfg &&& compl32 GUSBCFG_TRDT_Msk) := by
  have h1 := phy_fs_init_gusbcfg hookInit hookUpdate resetFn s hpost
  have h2 := phy_hs_init_gusbcfg hsPhyType phyDataWidth hookInit hookUpdate resetFn s hpost
  refine ⟨⟨h1, ?_⟩, h2, ?_⟩
  · rw [h1]
    exact trdtSet_outside _ 5 (by norm_num)
  · rw [h2]
    exact trdtSet_outside _ _ (by split <;> norm_num)

def regsA : Dwc2Regs := ⟨0xFFC00, 0, 0, 0, 0, 0, 0, 0⟩

theorem phy_init_gusbcfg_restore_witness :
    (∀ c t, ((fun _ u => u : Nat → Dwc2Regs → Dwc2Regs) c t).gusbcfg = t.gusbcfg) ∧
    (((phy_fs_init (fun _ u => u) (fun _ u => u) id regsA).gusbcfg
        = trdtSet (phy_fs_composed regsA.gusbcfg) 5 ∧
      (phy_fs_init (fun _ u => u) (fun _ u => u) id regsA).gusbcfg
          &&& compl32 GUSBCFG_TRDT_Msk
        = phy_fs_composed regsA.gusbcfg &&& compl32 GUSBCFG_TRDT_Msk) ∧
    ((phy_hs_init GHWCFG2_HSPHY_ULPI 0 (fun _ u => u) (fun _ u => u) id regsA).gusbcfg
        = trdtSet (phy_hs_composed GHWCFG2_HSPHY_ULPI 0 regsA.gusbcfg)
            (if (0 : Nat) != 0 then 5 else 9) ∧
      (phy_hs_init GHWCFG2_HSPHY_ULPI 0 (fun _ u => u) (fun _ u => u) id regsA).gusbcfg
          &&& compl32 GUSBCFG_TRDT_Msk
        = phy_hs_composed GHWCFG2_HSPHY_ULPI 0 regsA.gusbcfg &&& compl32 GUSBCFG_TRDT_Msk)) :=
  ⟨fun _ _ => rfl,
    phy_init_gusbcfg_restore GHWCFG2_HSPHY_ULPI 0 (fun _ u => u) (fun _ u => u) id regsA
      (fun _ _ => rfl)⟩

theorem testBit_ffff (i : Nat) : Nat.testBit 0xFFFF i = decide (i < 16) := by
  rw [show (0xFFFF : Nat) = 2 ^ 16 - 1 from rfl]
  exact Nat.testBit_two_pow_sub_one 16 i

theorem dfifo_halves (e : Nat) (he : e < 2 ^ 16) :
    ((e <<< 16) ||| e) >>> 16 = e ∧ ((e <<< 16) ||| e) &&& 0xFFFF = e := by
  constructor
  · apply Nat.eq_of_testBit_eq
    intro i
    simp only [Nat.testBit_shiftRight, Nat.testBit_or, Nat.testBit_shiftLeft,
      Nat.add_sub_cancel_left]
    have hhi : Nat.testBit e (16 + i) = false := testBit_false_of_lt_pow e 16 _ he (by omega)
    simp [hhi, show 16 + i ≥ 16 by omega]
  · apply Nat.eq_of_testBit_eq
    intro i
    simp only [Nat.testBit_and, Nat.testBit_or, Nat.testBit_shiftLeft, testBit_ffff]
    by_cases h16 : i < 16
    · simp [h16, show ¬ i ≥ 16 by omega]
    · have hei : Nat.testBit e i = false := testBit_false_of_lt_pow e 16 _ he (by omega)
      simp [h16, hei]

theorem core_init_clock_fifo_int_gusbcfg (u : Dwc2Regs) :
    (core_init_clock_fifo_int u).gusbcfg = u.gusbcfg := rfl

theorem core_init_clock_fifo_int_gintmsk (u : Dwc2Regs) :
    (core_init_clock_fifo_int u).gintmsk = 0 := rfl

theorem core_init_dma_mode_gusbcfg (dma : Bool) (ep : Nat) (u : Dwc2Regs) :
    (core_init_dma_mode dma ep u).gusbcfg = u.gusbcfg := by
  cases dma <;> rfl

theorem core_init_dma_mode_gintmsk_true (ep : Nat) (u : Dwc2Regs) :
    (core_init_dma_mode true ep u).gintmsk = u.gintmsk := rfl

theorem core_init_dma_mode_gintmsk_false (ep : Nat) (u : Dwc2Regs) :
    (core_init_dma_mode false ep u).gintmsk = u.gintmsk ||| GINTMSK_RXFLVLM := rfl

theorem core_init_dma_mode_gdfifocfg_true (ep : Nat) (u : Dwc2Regs) :
    (core_init_dma_mode true ep u).gdfifocfg
      = ((ep % 2 ^ 16) <<< GDFIFOCFG_EPINFOBASE_SHIFT) ||| (ep % 2 ^ 16) := rfl

theorem core_init_dma_mode_gahbcfg_false (ep : Nat) (u : Dwc2Regs) :
    (core_init_dma_mode false ep u).gahbcfg = u.gahbcfg ||| GAHBCFG_TXFELVL := rfl

/-- Claim C5: `dwc2_core_init` returns false if and only if the identity
check fails — the identification register masked to the id field matches
none of the three recognized values and the controller is not the
GD32VF103 erratum variant — and on that false return the register state
is exactly the entry state: no write beyond the identification read has
happened. -/
theorem dwc2_core_init_false_iff (isGD32VF103 : Bool)
    (gsnpsid hsPhyType phyDataWidth epinfoBase : Nat)
    (hookInit hookUpdate : Nat → Dwc2Regs → Dwc2Regs) (resetFn : Dwc2Regs → Dwc2Regs)
    (is_highspeed is_dma : Bool) (s : Dwc2Regs) :
    ((dwc2_core_init isGD32VF103 gsnpsid hsPhyType phyDataWidth epinfoBase
        hookInit hookUpdate resetFn is_highspeed is_dma s).fst = false ↔
      (isGD32VF103 = false ∧
        gsnpsid &&& GSNPSID_ID_MASK ≠ DWC2_OTG_ID ∧
        gsnpsid &&& GSNPSID_ID_MASK ≠ DWC2_FS_IOT_ID ∧
        gsnpsid &&& GSNPSID_ID_MASK ≠ DWC2_HS_IOT_ID)) ∧
    ((dwc2_core_init isGD32VF103 gsnpsid hsPhyType phyDataWidth epinfoBase
        hookInit hookUpdate resetFn is_highspeed is_dma s).fst = false →
      (dwc2_core_init isGD32VF103 gsnpsid hsPhyType phyDataWidth epinfoBase
        hookInit hookUpdate resetFn is_highspeed is_dma s).snd = s) := by
  cases isGD32VF103 with
  | true => simp [dwc2_core_init, check_dwc2]
  | false =>
    by_cases h1 : gsnpsid &&& GSNPSID_ID_MASK = DWC2_OTG_ID
    · simp [dwc2_core_init, check_dwc2, h1]
    · by_cases h2 : gsnpsid &&& GSNPSID_ID_MASK = DWC2_FS_IOT_ID
      · simp [dwc2_core_init, check_dwc2, h1, h2]
      · by_cases h3 : gsnpsid &&& GSNPSID_ID_MASK = DWC2_HS_IOT_ID
        · simp [dwc2_core_init, check_dwc2, h1, h2, h3]
        · simp [dwc2_core_init, check_dwc2, h1, h2, h3]

theorem dwc2_core_init_false_iff_witness :
    (((dwc2_core_init false 0x12340000 0 0 0 (fun _ u => u) (fun _ u => u) id
        false false regs0).fst = false ↔
      ((false : Bool) = false ∧
        (0x12340000 : Nat) &&& GSNPSID_ID_MASK ≠ DWC2_OTG_ID ∧
        (0x12340000 : Nat) &&& GSNPSID_ID_MASK ≠ DWC2_FS_IOT_ID ∧
        (0x12340000 : Nat) &&& GSNPSID_ID_MASK ≠ DWC2_HS_IOT_ID)) ∧
    ((dwc2_core_init false 0x12340000 0 0 0 (fun _ u => u) (fun _ u => u) id
        false false regs0).fst = false →
      (dwc2_core_init false 0x12340000 0 0 0 (fun _ u => u) (fun _ u => u) id
        false false regs0).snd = regs0)) :=
  dwc2_core_init_false_iff false 0x12340000 0 0 0 (fun _ u => u) (fun _ u => u) id
    false false regs0

/-- Claim C6: a `dwc2_core_init` run with DMA requested programs the
endpoint-info FIFO base (the external offset truncated to 16 bits) into
both halves of the DMA FIFO config register and returns with the
receive-FIFO-non-empty interrupt still masked; a run without DMA returns
with that interrupt unmasked, and steps 7-8 leave the DMA-enable bit of
the AHB config register exactly as it was on entry to step 7. -/
theorem dwc2_core_init_dma_vs_slave (isGD32VF103 : Bool)
    (gsnpsid hsPhyType phyDataWidth epinfoBase : Nat)
    (hookInit hookUpdate : Nat → Dwc2Regs → Dwc2Regs) (resetFn : Dwc2Regs → Dwc2Regs)
    (is_highspeed : Bool) (s : Dwc2Regs) :
    (∀ t, dwc2_core_init isGD32VF103 gsnpsid hsPhyType phyDataWidth epinfoBase
        hookInit hookUpdate resetFn is_highspeed true s = (true, t) →
      t.gdfifocfg >>> GDFIFOCFG_EPINFOBASE_SHIFT = epinfoBase % 2 ^ 16 ∧
      t.gdfifocfg &&& 0xFFFF = epinfoBase % 2 ^ 16 ∧
      t.gintmsk &&& GINTMSK_RXFLVLM = 0) ∧
    (∀ t, dwc2_core_init isGD32VF103 gsnpsid hsPhyType phyDataWidth epinfoBase
        hookInit hookUpdate resetFn is_highspeed false s = (true, t) →
      t.gintmsk &&& GINTMSK_RXFLVLM = GINTMSK_RXFLVLM) ∧
    (∀ u : Dwc2Regs, (core_init_dma_mode false epinfoBase u).gahbcfg &&& GAHBCFG_DMAEN
      = u.gahbcfg &&& GAHBCFG_DMAEN) := by
  have he : epinfoBase % 2 ^ 16 < 2 ^ 16 := Nat.mod_lt _ (by norm_num)
  obtain ⟨hhi, hlo⟩ := dfifo_halves (epinfoBase % 2 ^ 16) he
  refine ⟨?_, ?_, ?_⟩
  · intro t hrun
    by_cases hc : check_dwc2 isGD32VF103 gsnpsid = true
    · simp only [dwc2_core_init, hc, Bool.not_true, Bool.false_eq_true, if_false,
        Prod.mk.injEq, true_and] at hrun
      rw [← hrun]
      refine ⟨?_, ?_, ?_⟩
      · rw [core_init_dma_mode_gdfifocfg_true, GDFIFOCFG_EPINFOBASE_SHIFT]
        exact hhi
      · rw [core_init_dma_mode_gdfifocfg_true, GDFIFOCFG_EPINFOBASE_SHIFT]
        exact hlo
      · rw [core_init_dma_mode_gintmsk_true, core_init_clock_fifo_int_gintmsk]
        simp
    · simp [dwc2_core_init, hc] at hrun
  · intro t hrun
    by_cases hc : check_dwc2 isGD32VF103 gsnpsid = true
    · simp only [dwc2_core_init, hc, Bool.not_true, Bool.false_eq_true, if_false,
        Prod.mk.injEq, true_and] at hrun
      rw [← hrun, core_init_dma_mode_gintmsk_false, core_init_clock_fifo_int_gintmsk]
      simp [Nat.and_self]
    · simp [dwc2_core_init, hc] at hrun
  · intro u
    rw [core_init_dma_mode_gahbcfg_false, GAHBCFG_DMAEN, GAHBCFG_TXFELVL]
    rw [and_two_pow, and_two_pow, Nat.testBit_or]
    have h75 : Nat.testBit (2 ^ 7) 5 = false := by decide
    rw [h75]
    simp

theorem dwc2_core_init_dma_vs_slave_witness :
    ((dwc2_core_init false 0x4F540000 1 1 0x123 (fun _ u => u) (fun _ u => u) id true true
        regs0).snd.gdfifocfg >>> GDFIFOCFG_EPINFOBASE_SHIFT = 0x123 % 2 ^ 16 ∧
      (dwc2_core_init false 0x4F540000 1 1 0x123 (fun _ u => u) (fun _ u => u) id true true
        regs0).snd.gdfifocfg &&& 0xFFFF = 0x123 % 2 ^ 16 ∧
      (dwc2_core_init false 0x4F540000 1 1 0x123 (fun _ u => u) (fun _ u => u) id true true
        regs0).snd.gintmsk &&& GINTMSK_RXFLVLM = 0) ∧
    ((dwc2_core_init false 0x4F540000 1 1 0x123 (fun _ u => u) (fun _ u => u) id true false
        regs0).snd.gintmsk &&& GINTMSK_RXFLVLM = GINTMSK_RXFLVLM) ∧
    ((core_init_dma_mode false 0x123 regs0).gahbcfg &&& GAHBCFG_DMAEN
      = regs0.gahbcfg &&& GAHBCFG_DMAEN) := by
  obtain ⟨h1, h2, h3⟩ := dwc2_core_init_dma_vs_slave false 0x4F540000 1 1 0x123
    (fun _ u => u) (fun _ u => u) id true regs0
  exact ⟨h1 _ (by decide), h2 _ (by decide), h3 regs0⟩

theorem tocalField_or (g : Nat) : tocalField (g ||| 7 <<< GUSBCFG_TOCAL_Pos) = 7 := by
  apply Nat.eq_of_testBit_eq
  intro i
  simp only [tocalField, GUSBCFG_TOCAL_Pos, Nat.shiftLeft_zero, Nat.shiftRight_zero,
    Nat.testBit_and, Nat.testBit_or, testBit_7]
  by_cases h3 : i < 3 <;> simp [h3]

/-- Claim C7: every run of `dwc2_core_init` that passes the identity check
leaves the HS/FS interpacket timeout calibration field of the global USB
config register at exactly 7, its maximum value, whatever the field held
before the calibration write. -/
theorem dwc2_core_init_tocal_max (isGD32VF103 : Bool)
    (gsnpsid hsPhyType phyDataWidth epinfoBase : Nat)
    (hookInit hookUpdate : Nat → Dwc2Regs → Dwc2Regs) (resetFn : Dwc2Regs → Dwc2Regs)
    (is_highspeed is_dma : Bool) (s : Dwc2Regs) :
    (∀ u : Dwc2Regs, tocalField (core_init_calibrate u).gusbcfg = 7) ∧
    (∀ t, dwc2_core_init isGD32VF103 gsnpsid hsPhyType phyDataWidth epinfoBase
        hookInit hookUpdate resetFn is_highspeed is_dma s = (true, t) →
      tocalField t.gusbcfg = 7) := by
  constructor
  · intro u
    exact tocalField_or u.gusbcfg
  · intro t hrun
    by_cases hc : check_dwc2 isGD32VF103 gsnpsid = true
    · simp only [dwc2_core_init, hc, Bool.not_true, Bool.false_eq_true, if_false,
        Prod.mk.injEq, true_and] at hrun
      rw [← hrun, core_init_dma_mode_gusbcfg, core_init_clock_fifo_int_gusbcfg]
      exact tocalField_or _
    · simp [dwc2_core_init, hc] at hrun

theorem dwc2_core_init_tocal_max_witness :
    tocalField (core_init_calibrate regs0).gusbcfg = 7 ∧
    tocalField (dwc2_core_init false 0x4F540000 1 1 0 (fun _ u => u) (fun _ u => u) id
        false false regs0).snd.gusbcfg = 7 := by
  obtain ⟨h1, h2⟩ := dwc2_core_init_tocal_max false 0x4F540000 1 1 0 (fun _ u => u)
    (fun _ u => u) id false false regs0
  exact ⟨h1 regs0, h2 _ (by decide)⟩
